import Mathlib

set_option autoImplicit false

/-!
Shallow embedding of the OAuth2 authorization proxy of the api-console-extension
repository (the `OAuth2Proxy` and `AuthorizationError` classes and their
collaborators), together with theorems settling the frozen claims about it.

Conventions of the embedding:
* JavaScript string values that may be `null`/`undefined` are `Option String`;
  JavaScript truthiness of such a value is `jsTruthy`.
* A `URLSearchParams` value (and the plain record produced by
  `processCodeResponse`) is an ordered list of key/value pairs (`Params`).
* JavaScript numbers are `JsNum` (`NaN` or an integer; the proxy only ever
  computes with integral numbers).
* Wall-clock reads (`Date.now()`) and generated random strings enter the
  embedded functions as explicit parameters.
-/

namespace ApiConsoleExtension

/-- Ordered key/value pairs: the shallow embedding of a `URLSearchParams` value
(and of the plain records produced by `processCodeResponse`). -/
abbrev Params := List (String × String)

/-- Embedding of `URLSearchParams.get`: the value of the first entry with the given
key, or `none` for the JavaScript `null` returned when the key is absent. -/
def getParam : Params → String → Option String
  | [], _ => none
  | (k, v) :: t, key => if k = key then some v else getParam t key

/-- Embedding of `URLSearchParams.has`. -/
def hasParam (l : Params) (key : String) : Bool :=
  (getParam l key).isSome

/-- Embedding of `URLSearchParams.set`: replaces the value of the first entry with
the key and drops any further entries with it, or appends when the key is absent. -/
def setParam : Params → String → String → Params
  | [], key, v => [(key, v)]
  | (k, w) :: t, key, v =>
    if k = key then (key, v) :: t.filter (fun p => decide (p.1 ≠ key))
    else (k, w) :: setParam t key v

/-- JavaScript truthiness of a string-or-nullish value: `undefined`, `null` and the
empty string are falsy, every other string is truthy. -/
def jsTruthy : Option String → Bool
  | none => false
  | some s => decide (s ≠ "")

/-- A JavaScript number restricted to the values the OAuth2 proxy manipulates:
`NaN` or an integer. -/
inductive JsNum where
  | nan
  | val (n : Int)
  deriving DecidableEq, Repr

/-- Digit-list-to-value helper for the decimal fragment of `Number()`. -/
def digitsToNat (l : List Char) : Nat :=
  l.foldl (fun acc c => acc * 10 + (c.toNat - 48)) 0

/-- Embedding of the JavaScript `Number(s)` string conversion for the decimal
strings this development manipulates: the empty string converts to `0`, a string
of digits (optionally minus-signed) to the integer it denotes, anything else to
`NaN`. -/
def parseJsNumber (s : String) : JsNum :=
  match s.toList with
  | [] => .val 0
  | '-' :: rest =>
    if rest.isEmpty then .nan
    else if rest.all Char.isDigit then .val (-(digitsToNat rest : Int))
    else .nan
  | l => if l.all Char.isDigit then .val (digitsToNat l) else .nan

/-- The conversion `Number(x)` applied to a string-or-null value, as in
`Number(oauthParams.get(name))`: JavaScript converts `null` to `0`. -/
def jsNumberOfGet : Option String → JsNum
  | none => .val 0
  | some s => parseJsNumber s

/-- The conversion `Number(x)` applied to a string-or-undefined value, as in
`Number(info.expiresIn)` for a possibly missing record property: JavaScript
converts `undefined` to `NaN`. -/
def jsNumberOfProp : Option String → JsNum
  | none => .nan
  | some s => parseJsNumber s

/-- Boolean success test for an `Except` value. -/
def exceptIsOk {ε α : Type} : Except ε α → Bool
  | .ok _ => true
  | .error _ => false

/-- The canonical token record (`ITokenInfo`). Fields JavaScript may leave
`null`/`undefined` are options. -/
structure TokenInfo where
  accessToken : Option String
  idToken : Option String
  refreshToken : Option String
  tokenType : Option String
  expiresIn : JsNum
  state : Option String
  scope : List String
  expiresAt : Int
  expiresAssumed : Bool
  deriving DecidableEq, Repr

/-- Embedding of the `AuthorizationError` class: a message, a machine-readable
code, and the request state it is correlated with. -/
structure AuthorizationError where
  message : String
  code : String
  state : String
  deriving DecidableEq, Repr

/-- An outcome actually pushed to the caller of `authorize()`: the argument of a
performed `_resolveFunction` or `_rejectFunction` call. -/
inductive Delivered where
  | token (info : TokenInfo)
  | failure (e : AuthorizationError)
  deriving DecidableEq, Repr

/-- The mutable fields of an `OAuth2Proxy` instance read and written by the two
terminal entry points `_handleTokenInfo` and `_reportOAuthError`: `hasResolve` and
`hasReject` record whether `_resolveFunction` and `_rejectFunction` are still set,
`tokenResponse` is `_tokenResponse`, and `delivered` logs every outcome pushed
through one of the two functions. -/
structure ProxyState where
  hasResolve : Bool
  hasReject : Bool
  tokenResponse : Option TokenInfo
  delivered : List Delivered
  deriving DecidableEq, Repr

/-- Embedding of `OAuth2Proxy._reportOAuthError`: a no-op when `_rejectFunction`
is already gone; otherwise it rejects with an `AuthorizationError` built from the
message, the code and the request state, then clears both functions. -/
def reportOAuthError (reqState : String) (s : ProxyState) (message code : String) :
    ProxyState :=
  if s.hasReject then
    { s with
      delivered := s.delivered ++ [.failure ⟨message, code, reqState⟩]
      hasReject := false
      hasResolve := false }
  else s

/-- Embedding of `OAuth2Proxy._handleTokenInfo`: stores `_tokenResponse`
unconditionally, resolves only when `_resolveFunction` is still set, and clears
both functions unconditionally. -/
def handleTokenInfo (s : ProxyState) (info : TokenInfo) : ProxyState :=
  let s' := { s with tokenResponse := some info }
  if s'.hasResolve then
    { s' with
      delivered := s'.delivered ++ [.token info]
      hasResolve := false
      hasReject := false }
  else { s' with hasResolve := false, hasReject := false }

/-- A call to one of the two terminal entry points of one authorization attempt. -/
inductive TerminalCall where
  | report (message code : String)
  | handle (info : TokenInfo)
  deriving DecidableEq, Repr

/-- Dispatches one terminal call on the proxy state. -/
def applyTerminal (reqState : String) (s : ProxyState) : TerminalCall → ProxyState
  | .report m c => reportOAuthError reqState s m c
  | .handle info => handleTokenInfo s info

/-- Dispatches a sequence of terminal calls, in order. -/
def applyTerminals (reqState : String) (s : ProxyState) (cs : List TerminalCall) :
    ProxyState :=
  cs.foldl (applyTerminal reqState) s

/-- Embedding of the configuration record `IOAuth2Authorization`, restricted to
the fields the embedded functions read. `customAuth` flattens
`customData.auth.parameters` (JavaScript name/value objects become pairs); it is
`none` when `customData` or its `auth` member is absent. -/
structure OAuth2Settings where
  grantType : Option String
  responseType : Option String
  clientId : Option String
  clientSecret : Option String
  authorizationUri : String
  accessTokenUri : String
  redirectUri : Option String
  scopes : Option (List String)
  state : Option String
  pkce : Bool
  deliveryMethod : Option String
  deliveryName : Option String
  includeGrantedScopes : Bool
  loginHint : Option String
  customAuth : Option (List (String × String))
  deriving DecidableEq, Repr

/-- Splitting of a character list on a separator, mirroring the JavaScript
`String.prototype.split` with a single-character separator (an empty input
yields one empty piece). -/
def splitCharsOn (sep : Char) : List Char → List (List Char)
  | [] => [[]]
  | c :: cs =>
    if c = sep then [] :: splitCharsOn sep cs
    else
      match splitCharsOn sep cs with
      | [] => [[c]]
      | h :: t => (c :: h) :: t

/-- Embedding of the JavaScript `String.prototype.split` with a one-character
separator. -/
def strSplitOn (s : String) (sep : Char) : List String :=
  (splitCharsOn sep s.toList).map String.mk

/-- Embedding of the JavaScript `Array.prototype.join` with a string separator. -/
def joinWith (sep : String) : List String → String
  | [] => ""
  | [x] => x
  | x :: xs => x ++ sep ++ joinWith sep xs

/-- Embedding of the module-level `grantResponseMapping` record, indexed by the
grant type. -/
def grantResponseMapping : String → Option String
  | "implicit" => some "token"
  | "authorization_code" => some "code"
  | _ => none

/-- Containment of a pattern at the head of a character list. -/
def charsHavePre : List Char → List Char → Bool
  | [], _ => true
  | _ :: _, [] => false
  | p :: ps, c :: cs => decide (p = c) && charsHavePre ps cs

/-- Containment of a pattern anywhere in a character list. -/
def charsContain (pat : List Char) : List Char → Bool
  | [] => pat.isEmpty
  | c :: cs => charsHavePre pat (c :: cs) || charsContain pat cs

/-- Embedding of the JavaScript `String.prototype.includes`. -/
def strContains (s pat : String) : Bool :=
  charsContain pat.toList s.toList

/-- Modelled from the spec: the function `applyCustomSettingsQuery` of
CustomParameters.js is not under src/. Per the spec, the caller-supplied
`customData.auth.parameters` are applied last, after all standard parameters,
appended in order without overriding previously set ones. -/
def applyCustomSettingsQuery (p : Params) (cs : List (String × String)) : Params :=
  p ++ cs

/-- Embedding of `OAuth2Proxy.buildPopupUrlParams`, as the search-parameter list
of the returned URL. `init` embeds the query already present on
`settings.authorizationUri` (what `new URL(...)` yields as `searchParams`, empty
for a query-less URI); `stateValue` is the value of the proxy's `state` getter;
`challenge` stands for the PKCE code challenge (`generateCodeChallenge` is a
SHA-256 hash of a freshly generated random verifier, so the challenge enters as a
parameter). `none` corresponds to the source returning `null` when no response
type can be computed. An `undefined` `clientId` is coerced to the string
`undefined` by `URLSearchParams.set`. -/
def buildPopupUrlParams (s : OAuth2Settings) (stateValue challenge : String)
    (init : Params) : Option Params :=
  match (if jsTruthy s.responseType then s.responseType
         else s.grantType.bind grantResponseMapping) with
  | none => none
  | some type =>
    if type = "" then none
    else
      let p := setParam init "response_type" type
      let p := setParam p "client_id" (s.clientId.getD "undefined")
      let p := setParam p "state" stateValue
      let p := if jsTruthy s.redirectUri then
          setParam p "redirect_uri" (s.redirectUri.getD "")
        else p
      let p := match s.scopes with
        | some scopes =>
          if scopes ≠ [] then setParam p "scope" (joinWith " " scopes)
          else p
        | none => p
      let p := if s.includeGrantedScopes then
          setParam p "include_granted_scopes" "true"
        else p
      let p := if jsTruthy s.loginHint then
          setParam p "login_hint" (s.loginHint.getD "")
        else p
      let p := if s.pkce && strContains type "code" then
          setParam (setParam p "code_challenge" challenge)
            "code_challenge_method" "S256"
        else p
      match s.customAuth with
      | some cs => some (applyCustomSettingsQuery p cs)
      | none => some p

/-- Embedding of `OAuth2Proxy._computeExpires`; `now` is the `Date.now()`
reading. The guard mirrors the source's `!expiresIn || Number.isNaN(expiresIn)`:
both `NaN` and `0` trigger the 3600-second default and set `expiresAssumed`. -/
def computeExpires (now : Int) (t : TokenInfo) : TokenInfo :=
  match t.expiresIn with
  | .nan =>
    { t with
      expiresIn := .val 3600
      expiresAssumed := true
      expiresAt := now + 3600 * 1000 }
  | .val n =>
    if n = 0 then
      { t with
        expiresIn := .val 3600
        expiresAssumed := true
        expiresAt := now + 3600 * 1000 }
    else { t with expiresIn := .val n, expiresAt := now + n * 1000 }

/-- Embedding of `OAuth2Proxy._computeTokenInfoScopes`. In the source a present
`settings.scopes` array is truthy even when empty, while a present but empty
`scope` string is falsy. -/
def computeTokenInfoScopes (s : OAuth2Settings) (scope : Option String) :
    List String :=
  if !jsTruthy scope && s.scopes.isSome then s.scopes.getD []
  else
    match scope with
    | some sc => if sc ≠ "" then strSplitOn sc ' ' else []
    | none => []

/-- Embedding of `OAuth2Proxy._tokenInfoFromParams`, including its final
`_computeExpires` call. -/
def tokenInfoFromParams (s : OAuth2Settings) (now : Int) (oauthParams : Params) :
    TokenInfo :=
  computeExpires now
    { accessToken := getParam oauthParams "access_token"
      idToken := getParam oauthParams "id_token"
      refreshToken := getParam oauthParams "refresh_token"
      tokenType := getParam oauthParams "token_type"
      expiresIn := jsNumberOfGet (getParam oauthParams "expires_in")
      state := getParam oauthParams "state"
      scope := computeTokenInfoScopes s (getParam oauthParams "scope")
      expiresAt := 0
      expiresAssumed := false }

/-- Embedding of `OAuth2Proxy._createErrorParams`: the error-code taxonomy,
returning the message/code pair handed to `_reportOAuthError`. A truthy
description wins over the taxonomy text. -/
def createErrorParams (code : String) (description : Option String) :
    String × String :=
  let message :=
    if jsTruthy description then description.getD ""
    else if code = "interaction_required" then
      "The request requires user interaction."
    else if code = "invalid_request" then
      "The request is missing a required parameter."
    else if code = "invalid_client" then "Client authentication failed."
    else if code = "invalid_grant" then
      "The provided authorization grant or refresh token is invalid, expired, revoked, does not match the redirection URI used in the authorization request, or was issued to another client."
    else if code = "unauthorized_client" then
      "The authenticated client is not authorized to use this authorization grant type."
    else if code = "unsupported_grant_type" then
      "The authorization grant type is not supported by the authorization server."
    else if code = "invalid_scope" then
      "The requested scope is invalid, unknown, malformed, or exceeds the scope granted by the resource owner."
    else "Unknown error"
  (message, code)

/-- Embedding of `OAuth2Proxy._createTokenResponseError`. It is only reached when
the payload has an `error` entry, so defaulting the absent case to the empty
string is unobservable. -/
def createTokenResponseError (oauthParams : Params) : String × String :=
  createErrorParams ((getParam oauthParams "error").getD "")
    (getParam oauthParams "error_description")

/-- The continuation selected by `processTokenResponse`: a terminal failure
report, a direct resolution built from the redirect payload, or the code-exchange
step of the authorization_code grant. -/
inductive TokenStep where
  | failure (message code : String)
  | resolveImplicit (info : TokenInfo)
  | exchange (code : String)
  deriving DecidableEq, Repr

/-- The grant-type dispatch forming the tail of `processTokenResponse`, reached
once the payload has passed the state and error checks. -/
def grantSuccessStep (s : OAuth2Settings) (now : Int) (oauthParams : Params) :
    TokenStep :=
  if s.grantType = some "implicit" ∨ s.responseType = some "id_token" then
    .resolveImplicit (tokenInfoFromParams s now oauthParams)
  else if s.grantType = some "authorization_code" then
    match getParam oauthParams "code" with
    | none =>
      .failure "The authorization server did not returned the authorization code."
        "no_code"
    | some c =>
      if c = "" then
        .failure
          "The authorization server did not returned the authorization code."
          "no_code"
      else .exchange c
  else
    .failure
      "The authorization process has an invalid state. This should never happen."
      "unknown_state"

/-- Embedding of `OAuth2Proxy.processTokenResponse`; `reqState` is the value of
the proxy's `state` getter and `now` the clock reading used when a token is built
from the payload. The source's `!state` guard treats an absent and an
empty-valued `state` entry alike. -/
def processTokenResponse (s : OAuth2Settings) (reqState : String) (now : Int)
    (oauthParams : Params) : TokenStep :=
  match getParam oauthParams "state" with
  | none => .failure "Server did not return the state parameter." "no_state"
  | some st =>
    if st = "" then
      .failure "Server did not return the state parameter." "no_state"
    else if st ≠ reqState then
      .failure "The state value returned by the authorization server is invalid."
        "invalid_state"
    else if hasParam oauthParams "error" then
      .failure (createTokenResponseError oauthParams).1
        (createTokenResponseError oauthParams).2
    else grantSuccessStep s now oauthParams

/-- The `AuthorizationError` delivered through `_reportOAuthError` when
`processTokenResponse` selects a failure, and `none` when it proceeds. -/
def redirectDeliveredError (s : OAuth2Settings) (reqState : String) (now : Int)
    (oauthParams : Params) : Option AuthorizationError :=
  match processTokenResponse s reqState now oauthParams with
  | .failure m c => some ⟨m, c, reqState⟩
  | _ => none

/-- Embedding of the `CodeError` thrown by `mapCodeResponse`: `message` is
`info.errorDescription` (possibly absent; the `Error` constructor renders an
absent message as the empty string, which is equally falsy downstream) and `code`
is the truthy `info.error` value. -/
structure CodeErrorInfo where
  message : Option String
  code : String
  deriving DecidableEq, Repr

/-- Embedding of `OAuth2Proxy.mapCodeResponse` over the camel-cased record
produced by `processCodeResponse` (record values are modelled as their string
representations): throws `CodeError` when the record has a truthy `error`,
otherwise spreads the record into a token and computes its expiry. A missing
`expiresIn` property is `undefined`, hence `NaN` after `Number()`. -/
def mapCodeResponse (s : OAuth2Settings) (now : Int) (info : Params) :
    Except CodeErrorInfo TokenInfo :=
  if jsTruthy (getParam info "error") then
    .error ⟨getParam info "errorDescription", (getParam info "error").getD ""⟩
  else
    .ok (computeExpires now
      { accessToken := getParam info "accessToken"
        idToken := getParam info "idToken"
        refreshToken := getParam info "refreshToken"
        tokenType := getParam info "tokenType"
        expiresIn := jsNumberOfProp (getParam info "expiresIn")
        state := getParam info "state"
        scope := computeTokenInfoScopes s (getParam info "scope")
        expiresAt := 0
        expiresAssumed := false })

/-- A failure escaping the exchange: a `CodeError` from `mapCodeResponse`, or any
other thrown `Error` carrying its message. -/
inductive ExchangeFailure where
  | codeError (e : CodeErrorInfo)
  | plain (message : String)
  deriving DecidableEq, Repr

/-- Embedding of `OAuth2Proxy._handleTokenCodeError`: the message/code pair
reported for a failed exchange. A `CodeError` goes through the taxonomy with its
own code; any other error is wrapped with the connection prefix under
`request_error`. -/
def handleTokenCodeError : ExchangeFailure → String × String
  | .codeError e => createErrorParams e.code e.message
  | .plain m => ("Couldn\x27t connect to the server. " ++ m, "request_error")

/-- Embedding of the HTTP status and body checks of
`OAuth2Proxy.requestTokenInfo` (the code between receiving the response and
handing its body to `processCodeResponse`): `status` is `response.status`,
`textOk` records whether `response.text()` succeeded, `body` is the text it
produced. An `error` value carries the message of the `Error` the source throws;
the `ok` value is the response body handed on to `processCodeResponse`. -/
def requestTokenInfoGate (status : Nat) (textOk : Bool) (body : String) :
    Except String String :=
  if status = 404 then .error "Authorization URI is invalid. Received status 404."
  else if status ≥ 500 then
    .error ("Authorization server error. Response code is: " ++ toString status)
  else
    let responseBody := if textOk then body else "No response has been recorded"
    if responseBody = "" then .error "Code response body is empty."
    else if 400 ≤ status ∧ status < 500 then
      .error ("Client error: " ++ responseBody)
    else .ok responseBody

/-- The message/code pair delivered through `_reportOAuthError` when the HTTP
gate of `requestTokenInfo` rejects the exchange: the thrown `Error` is caught by
the grant driver and passed to `_handleTokenCodeError`. -/
def exchangeHttpFailure (status : Nat) (textOk : Bool) (body : String) :
    Option (String × String) :=
  match requestTokenInfoGate status textOk body with
  | .error m => some (handleTokenCodeError (.plain m))
  | .ok _ => none

/-- The outcome a direct-grant driver (`_authorizeClientCredentials`,
`_authorizePassword`, `_authorizeDeviceCode`, `_authorizeJwt`,
`_authorizeCustomGrant`) delivers once `requestTokenInfo` has produced the
normalized record: resolve with the mapped token, or report the mapped error. -/
def directGrantDelivery (s : OAuth2Settings) (reqState : String) (now : Int)
    (info : Params) : Delivered :=
  match mapCodeResponse s now info with
  | .ok t => .token t
  | .error e =>
    .failure ⟨(handleTokenCodeError (.codeError e)).1,
      (handleTokenCodeError (.codeError e)).2, reqState⟩

/-- The redirect URL captured by the tab listener, seen through `new URL(url)`:
either the constructor throws (`malformed`), or it yields a query (`search`
without its leading question mark) and a fragment (`hash` without its leading
hash sign). -/
inductive RedirectUrl where
  | malformed
  | ok (search : String) (hash : String)
  deriving DecidableEq, Repr

/-- Embedding of `OAuth2Proxy._authDataFromUrl` together with the `new URL`
parse that may throw: the query string when non-empty, else the fragment. -/
def authDataFromUrl : RedirectUrl → Option String
  | .malformed => none
  | .ok search hash => some (if search ≠ "" then search else hash)

/-- Embedding of the `URLSearchParams(raw)` string parse: split on ampersands,
each segment at its first equals sign; empty segments are dropped.
Percent-decoding is not modelled, no claim involves encoded characters. -/
def parseSearchParams (raw : String) : Params :=
  (strSplitOn raw '&').filterMap fun seg =>
    if seg = "" then none
    else
      match strSplitOn seg '=' with
      | [] => none
      | k :: rest => some (k, joinWith "=" rest)

/-- Embedding of `OAuth2Proxy._validateTokenResponse`. -/
def validateTokenResponse (params : Params) : Bool :=
  ["state", "error", "access_token", "code"].any fun name => hasParam params name

/-- What `_processPopupResponseUrl` does with a captured redirect: report a
terminal failure, hand the parameters on to `processTokenResponse`, or — when the
payload does not qualify — only log a console warning, leaving the attempt
unresolved. -/
inductive PopupOutcome where
  | failure (message code : String)
  | process (params : Params)
  | ignored
  deriving DecidableEq, Repr

/-- Embedding of `OAuth2Proxy._processPopupResponseUrl`. The source's second
catch (around the `URLSearchParams` constructor, which does not throw on string
input) is unreachable and has no counterpart here. -/
def processPopupResponseUrl (u : RedirectUrl) : PopupOutcome :=
  match authDataFromUrl u with
  | none =>
    .failure
      "Invalid response from the authentication server. The redirect parameters are invalid."
      "popup_error"
  | some raw =>
    if raw = "" then
      .failure
        "Invalid response from the authentication server. The redirect parameters are invalid."
        "popup_error"
    else
      let params := parseSearchParams raw
      if validateTokenResponse params then .process params else .ignored

/-- The base64 alphabet used by `btoa`, indexed. -/
def base64Char (n : Nat) : Char :=
  "ABCDEFGHIJKLMNOPQRSTUVWXYZabcdefghijklmnopqrstuvwxyz0123456789+/".toList.getD
    n '='

/-- Standard base64 encoding of a byte list, with padding. -/
def base64Encode : List Nat → List Char
  | [] => []
  | [a] => [base64Char (a / 4), base64Char (a % 4 * 16), '=', '=']
  | [a, b] =>
    [base64Char (a / 4), base64Char (a % 4 * 16 + b / 16),
      base64Char (b % 16 * 4), '=']
  | a :: b :: c :: t =>
    base64Char (a / 4) :: base64Char (a % 4 * 16 + b / 16) ::
      base64Char (b % 16 * 4 + c / 64) :: base64Char (c % 64) :: base64Encode t

/-- Embedding of the browser `btoa` for the latin-1 strings the proxy feeds it. -/
def btoa (s : String) : String :=
  String.mk (base64Encode (s.toList.map Char.toNat))

/-- Embedding of `OAuth2Proxy.getClientCredentialsBody`, as the `URLSearchParams`
value the source serializes into the form-encoded body. -/
def getClientCredentialsBody (s : OAuth2Settings) : Params :=
  let headerTransport : Bool := decide (s.deliveryMethod = some "header")
  let p := setParam [] "grant_type" "client_credentials"
  let p := if !headerTransport && jsTruthy s.clientId then
      setParam p "client_id" (s.clientId.getD "")
    else p
  let p := if !headerTransport && jsTruthy s.clientSecret then
      setParam p "client_secret" (s.clientSecret.getD "")
    else p
  match s.scopes with
  | some scopes =>
    if scopes ≠ [] then setParam p "scope" (joinWith " " scopes) else p
  | none => p

/-- Embedding of `OAuth2Proxy.getClientCredentialsHeader`. -/
def getClientCredentialsHeader (s : OAuth2Settings) : String :=
  "Basic " ++ btoa ((s.clientId.getD "") ++ ":" ++ (s.clientSecret.getD ""))

/-- The optional extra-header record `_authorizeClientCredentials` builds for the
exchange request: exactly one entry, named by `deliveryName` (defaulted to
`authorization` by destructuring), when the delivery method (defaulted to `body`)
is `header`; no record otherwise. The record is spread into the request headers
last, after the standard and custom headers. -/
def clientCredentialsHeaders (s : OAuth2Settings) : Option (String × String) :=
  if s.deliveryMethod.getD "body" = "header" then
    some (s.deliveryName.getD "authorization", getClientCredentialsHeader s)
  else none

/-- Embedding of `OAuth2Proxy.getCodeRequestBody`, as the `URLSearchParams`
value the source serializes; `verifier` stands for the stored
`_codeVerifierValue` (set while building the popup URL when PKCE is on;
`URLSearchParams.set` coerces `undefined` string values to the string
`undefined`). -/
def getCodeRequestBody (s : OAuth2Settings) (code : String)
    (verifier : Option String) : Params :=
  let p := setParam [] "grant_type" "authorization_code"
  let p := setParam p "client_id" (s.clientId.getD "undefined")
  let p := if jsTruthy s.redirectUri then
      setParam p "redirect_uri" (s.redirectUri.getD "")
    else p
  let p := setParam p "code" code
  let p := if jsTruthy s.clientSecret then
      setParam p "client_secret" (s.clientSecret.getD "")
    else setParam p "client_secret" ""
  if s.pkce then setParam p "code_verifier" (verifier.getD "undefined") else p

/-- A sample token record used to instantiate theorems on concrete inputs. -/
def demoToken : TokenInfo :=
  { accessToken := some "token1234"
    idToken := none
    refreshToken := none
    tokenType := some "Bearer"
    expiresIn := .val 3600
    state := some "my-state"
    scope := ["a", "b"]
    expiresAt := 3600000
    expiresAssumed := false }

/-- A sample implicit-grant configuration used to instantiate theorems on
concrete inputs. -/
def demoImplicit : OAuth2Settings :=
  { grantType := some "implicit"
    responseType := none
    clientId := some "auth-code-cid"
    clientSecret := none
    authorizationUri := "http://localhost:8000/oauth2/auth-implicit"
    accessTokenUri := ""
    redirectUri := some "http://localhost:8000/test/authorization/popup.html"
    scopes := some ["a", "b"]
    state := some "my-state"
    pkce := false
    deliveryMethod := none
    deliveryName := none
    includeGrantedScopes := false
    loginHint := none
    customAuth := none }

/-- A sample authorization_code configuration with request state `abc`. -/
def demoCode : OAuth2Settings :=
  { demoImplicit with
    grantType := some "authorization_code"
    state := some "abc"
    accessTokenUri := "http://localhost:8000/oauth2/token" }

/-- A sample client_credentials configuration delivering credentials in a
header. -/
def demoCreds : OAuth2Settings :=
  { demoImplicit with
    grantType := some "client_credentials"
    clientId := some "id"
    clientSecret := some "secret"
    accessTokenUri := "http://localhost:8000/oauth2/client-credentials-header"
    deliveryMethod := some "header"
    scopes := none }

/-- A sample configuration whose caller-supplied custom authorization parameters
contain a `client_secret` entry. -/
def demoCustomSecret : OAuth2Settings :=
  { demoImplicit with
    clientSecret := some "s3cret"
    customAuth := some [("client_secret", "s3cret")] }

/-! Theorems. -/

theorem applyTerminal_closed (reqState : String) (s : ProxyState) (c : TerminalCall)
    (h1 : s.hasResolve = false) (h2 : s.hasReject = false) :
    (applyTerminal reqState s c).delivered = s.delivered ∧
      (applyTerminal reqState s c).hasResolve = false ∧
      (applyTerminal reqState s c).hasReject = false := by
  cases c with
  | report m c => simp [applyTerminal, reportOAuthError, h1, h2]
  | handle info => simp [applyTerminal, handleTokenInfo, h1]

theorem applyTerminal_delivers_closes (reqState : String) (s : ProxyState)
    (c : TerminalCall) (h : (applyTerminal reqState s c).delivered ≠ s.delivered) :
    (applyTerminal reqState s c).hasResolve = false ∧
      (applyTerminal reqState s c).hasReject = false := by
  cases c with
  | report m c =>
    by_cases hr : s.hasReject
    · simp [applyTerminal, reportOAuthError, hr]
    · exfalso; exact h (by simp [applyTerminal, reportOAuthError, hr])
  | handle info =>
    by_cases hr : s.hasResolve
    · simp [applyTerminal, handleTokenInfo, hr]
    · exfalso; exact h (by simp [applyTerminal, handleTokenInfo, hr])

theorem applyTerminals_closed (reqState : String) (cs : List TerminalCall) :
    ∀ s : ProxyState, s.hasResolve = false → s.hasReject = false →
      (applyTerminals reqState s cs).delivered = s.delivered := by
  induction cs with
  | nil => intro s _ _; rfl
  | cons c t ih =>
    intro s h1 h2
    obtain ⟨hd, hr1, hr2⟩ := applyTerminal_closed reqState s c h1 h2
    calc (applyTerminals reqState (applyTerminal reqState s c) t).delivered
        = (applyTerminal reqState s c).delivered := ih _ hr1 hr2
      _ = s.delivered := hd

/-- Claim C1: for every authorization attempt, a terminal outcome is delivered at
most once. Once a call to a terminal entry point (`_handleTokenInfo` or
`_reportOAuthError`) has actually delivered an outcome — that is, it changed the
log of outcomes pushed to the caller — every later sequence of calls to either
entry point leaves the delivered outcomes unchanged, whatever racing event
triggered those calls. -/
theorem c1_terminal_outcome_once (reqState : String) (s : ProxyState)
    (c : TerminalCall) (cs : List TerminalCall)
    (h : (applyTerminal reqState s c).delivered ≠ s.delivered) :
    (applyTerminals reqState (applyTerminal reqState s c) cs).delivered =
      (applyTerminal reqState s c).delivered := by
  obtain ⟨h1, h2⟩ := applyTerminal_delivers_closes reqState s c h
  exact applyTerminals_closed reqState cs _ h1 h2

/-- Witness for claim C1 at a concrete input: starting from a fresh attempt, a
first error report delivers an outcome, and racing later calls to both terminal
entry points do not change what was delivered. -/
theorem c1_terminal_outcome_once_witness :
    (applyTerminal "my-state" ⟨true, true, none, []⟩
        (.report "No response has been recorded." "no_response")).delivered ≠
      (ProxyState.mk true true none []).delivered ∧
    (applyTerminals "my-state"
        (applyTerminal "my-state" ⟨true, true, none, []⟩
          (.report "No response has been recorded." "no_response"))
        [.handle demoToken, .report "again" "no_response"]).delivered =
      (applyTerminal "my-state" ⟨true, true, none, []⟩
        (.report "No response has been recorded." "no_response")).delivered := by
  refine ⟨by decide, ?_⟩
  exact c1_terminal_outcome_once "my-state" ⟨true, true, none, []⟩
    (.report "No response has been recorded." "no_response")
    [.handle demoToken, .report "again" "no_response"] (by decide)

theorem getParam_filter_ne (t : Params) (key k : String) (h : k ≠ key) :
    getParam (t.filter fun p => !decide (p.1 = key)) k = getParam t k := by
  induction t with
  | nil => rfl
  | cons a t ih =>
    obtain ⟨a1, a2⟩ := a
    by_cases ha : a1 = key
    · have h1 : a1 ≠ k := fun hh => h (hh.symm.trans ha)
      simp [List.filter_cons, ha, getParam, h1, Ne.symm h, ih]
    · simp [List.filter_cons, ha, getParam, ih]

theorem getParam_setParam_self (l : Params) (k v : String) :
    getParam (setParam l k v) k = some v := by
  induction l with
  | nil => simp [setParam, getParam]
  | cons a t ih =>
    obtain ⟨a1, a2⟩ := a
    by_cases ha : a1 = k
    · simp [setParam, ha, getParam]
    · simp [setParam, ha, getParam, ih]

theorem getParam_setParam_ne (l : Params) (key v k : String) (h : k ≠ key) :
    getParam (setParam l key v) k = getParam l k := by
  induction l with
  | nil => simp [setParam, getParam, Ne.symm h]
  | cons a t ih =>
    obtain ⟨a1, a2⟩ := a
    by_cases ha : a1 = key
    · have h1 : a1 ≠ k := fun hh => h (hh.symm.trans ha)
      simp [setParam, ha, getParam, Ne.symm h, h1, getParam_filter_ne t key k h]
    · simp [setParam, ha, getParam, ih]

theorem getParam_of_all_ne (l : Params) (k : String) (h : ∀ q ∈ l, q.1 ≠ k) :
    getParam l k = none := by
  induction l with
  | nil => rfl
  | cons a t ih =>
    obtain ⟨a1, a2⟩ := a
    have h1 : a1 ≠ k := h (a1, a2) (List.mem_cons_self _ _)
    simp only [getParam, if_neg h1]
    exact ih fun q hq => h q (List.mem_cons_of_mem _ hq)

theorem getParam_append_of_none (l1 l2 : Params) (k : String)
    (h : getParam l1 k = none) : getParam (l1 ++ l2) k = getParam l2 k := by
  induction l1 with
  | nil => rfl
  | cons a t ih =>
    obtain ⟨a1, a2⟩ := a
    by_cases ha : a1 = k
    · simp [getParam, ha] at h
    · simp only [getParam, if_neg ha] at h
      simpa only [List.cons_append, getParam, if_neg ha] using ih h

theorem computeExpires_tokenType (now : Int) (t : TokenInfo) :
    (computeExpires now t).tokenType = t.tokenType := by
  unfold computeExpires
  split
  · rfl
  · split <;> rfl

/-- Claim C2, amended: the validation sequence — missing or empty `state` fails
with `no_state`, then a `state` different from the request state fails with
`invalid_state`, then a present `error` fails through the taxonomy, and only then
does the payload proceed to grant-specific success handling — applies to redirect
payloads processed by `processTokenResponse`; a direct token endpoint response is
validated only for a truthy `error` by `mapCodeResponse`, with no state checks. -/
theorem c2_response_validation (s : OAuth2Settings) (reqState : String)
    (now : Int) (oauthParams : Params) :
    ((getParam oauthParams "state" = none ∨
        getParam oauthParams "state" = some "") →
      processTokenResponse s reqState now oauthParams =
        .failure "Server did not return the state parameter." "no_state") ∧
    (∀ st, getParam oauthParams "state" = some st → st ≠ "" → st ≠ reqState →
      processTokenResponse s reqState now oauthParams =
        .failure
          "The state value returned by the authorization server is invalid."
          "invalid_state") ∧
    (getParam oauthParams "state" = some reqState → reqState ≠ "" →
      hasParam oauthParams "error" = true →
      processTokenResponse s reqState now oauthParams =
        .failure (createTokenResponseError oauthParams).1
          (createTokenResponseError oauthParams).2) ∧
    (getParam oauthParams "state" = some reqState → reqState ≠ "" →
      hasParam oauthParams "error" = false →
      processTokenResponse s reqState now oauthParams =
        grantSuccessStep s now oauthParams) ∧
    (∀ info : Params,
      exceptIsOk (mapCodeResponse s now info) =
        !jsTruthy (getParam info "error")) := by
  refine ⟨?_, ?_, ?_, ?_, ?_⟩
  · rintro (h | h) <;> simp [processTokenResponse, h]
  · intro st hst h0 hne
    simp [processTokenResponse, hst, h0, hne]
  · intro hst h0 herr
    simp [processTokenResponse, hst, h0, herr]
  · intro hst h0 herr
    simp [processTokenResponse, hst, h0, herr]
  · intro info
    cases h : jsTruthy (getParam info "error") <;>
      simp [mapCodeResponse, exceptIsOk, h]

/-- Claim C2, counterexample against the claim as stated: a direct token
endpoint response (client_credentials grant) carrying no `state` key at all is
accepted and delivered as a token, instead of failing with `no_state` as a
uniformly applied validation would require. -/
theorem c2_counterexample :
    directGrantDelivery demoCreds "my-state" 0 [("accessToken", "tok")] =
      .token
        { accessToken := some "tok"
          idToken := none
          refreshToken := none
          tokenType := none
          expiresIn := .val 3600
          state := none
          scope := []
          expiresAt := 3600000
          expiresAssumed := true } := by decide

/-- Witness for the amended claim C2 at concrete inputs. -/
theorem c2_response_validation_witness :
    processTokenResponse demoImplicit "my-state" 0 [("access_token", "t")] =
      .failure "Server did not return the state parameter." "no_state" ∧
    processTokenResponse demoImplicit "my-state" 0 [("state", "other")] =
      .failure "The state value returned by the authorization server is invalid."
        "invalid_state" ∧
    processTokenResponse demoImplicit "my-state" 0
        [("state", "my-state"), ("error", "invalid_client")] =
      .failure "Client authentication failed." "invalid_client" ∧
    processTokenResponse demoImplicit "my-state" 0
        [("state", "my-state"), ("access_token", "t")] =
      grantSuccessStep demoImplicit 0
        [("state", "my-state"), ("access_token", "t")] ∧
    exceptIsOk (mapCodeResponse demoImplicit 0 [("accessToken", "t")]) = true := by
  refine ⟨?_, ?_, ?_, ?_, ?_⟩
  · exact (c2_response_validation demoImplicit "my-state" 0 _).1
      (Or.inl (by decide))
  · exact (c2_response_validation demoImplicit "my-state" 0 _).2.1 "other"
      (by decide) (by decide) (by decide)
  · exact ((c2_response_validation demoImplicit "my-state" 0 _).2.2.1
      (by decide) (by decide) (by decide)).trans (by decide)
  · exact (c2_response_validation demoImplicit "my-state" 0 _).2.2.2.1
      (by decide) (by decide) (by decide)
  · exact ((c2_response_validation demoImplicit "my-state" 0 []).2.2.2.2
      [("accessToken", "t")]).trans (by decide)

/-- Claim C3, amended: the authorization URL built by `buildPopupUrlParams`
contains no `client_secret` query parameter beyond any the caller itself supplies
— through the query already on `authorizationUri` or through
`customData.auth.parameters` — and the URL is independent of the configured
`clientSecret`: two configurations differing only in `clientSecret` yield the
same URL. -/
theorem c3_no_client_secret_in_popup_url (s : OAuth2Settings)
    (stateValue challenge : String) (init : Params) (cs' : Option String)
    (ps : Params)
    (hinit : getParam init "client_secret" = none)
    (hcustom : ∀ l, s.customAuth = some l → ∀ q ∈ l, q.1 ≠ "client_secret")
    (heq : buildPopupUrlParams s stateValue challenge init = some ps) :
    getParam ps "client_secret" = none ∧
      buildPopupUrlParams { s with clientSecret := cs' } stateValue challenge
          init =
        buildPopupUrlParams s stateValue challenge init := by
  refine ⟨?_, rfl⟩
  unfold buildPopupUrlParams at heq
  split at heq
  · exact absurd heq (by simp)
  · split at heq
    · exact absurd heq (by simp)
    · cases hca : s.customAuth with
      | none =>
        rw [hca] at heq
        simp only [] at heq
        repeat' split at heq
        all_goals
          (injection heq with heq; subst heq;
            simp [getParam_setParam_ne, hinit])
      | some csl =>
        have hnone : getParam csl "client_secret" = none :=
          getParam_of_all_ne _ _ (hcustom csl hca)
        rw [hca] at heq
        simp only [] at heq
        repeat' split at heq
        all_goals
          (injection heq with heq; subst heq;
            simp [applyCustomSettingsQuery, getParam_append_of_none,
              getParam_setParam_ne, hinit, hnone])

/-- Claim C3, counterexample against the claim as stated: a configuration whose
caller-supplied `customData.auth.parameters` contain a `client_secret` entry
produces an authorization URL that does carry a `client_secret` query
parameter. -/
theorem c3_counterexample :
    (buildPopupUrlParams demoCustomSecret "my-state" "challenge" []).map
        (fun ps => hasParam ps "client_secret") = some true := by decide

/-- Witness for the amended claim C3 at a concrete input. -/
theorem c3_no_client_secret_in_popup_url_witness :
    getParam
        ((buildPopupUrlParams demoImplicit "my-state" "challenge" []).getD [])
        "client_secret" = none ∧
      buildPopupUrlParams { demoImplicit with clientSecret := some "x" }
          "my-state" "challenge" [] =
        buildPopupUrlParams demoImplicit "my-state" "challenge" [] := by
  have h := c3_no_client_secret_in_popup_url demoImplicit "my-state" "challenge"
    [] (some "x")
    ((buildPopupUrlParams demoImplicit "my-state" "challenge" []).getD [])
    (by decide) (fun l hl => nomatch hl) (by decide)
  exact ⟨h.1, h.2⟩

/-- Claim C4, amended: a redirect payload whose non-empty `state` differs from
the request state makes the attempt fail with code `invalid_state`; the reported
`AuthorizationError` carries the expected (request) state in its `state` field,
but — as the error is the same whatever state was received — the received state
is not derivable from it. -/
theorem c4_invalid_state_error (s : OAuth2Settings) (reqState : String)
    (now : Int) (oauthParams : Params) (st : String)
    (hst : getParam oauthParams "state" = some st) (h0 : st ≠ "")
    (hne : st ≠ reqState) :
    redirectDeliveredError s reqState now oauthParams =
      some
        ⟨"The state value returned by the authorization server is invalid.",
          "invalid_state", reqState⟩ := by
  simp [redirectDeliveredError, processTokenResponse, hst, h0, hne]

/-- Claim C4, counterexample against the claim as stated: with request state
`abc`, the payloads with state `xyz` and state `pqr` produce the very same
`AuthorizationError`, so the received state is not derivable from the reported
error; only the expected state is carried. -/
theorem c4_counterexample :
    redirectDeliveredError demoCode "abc" 0 [("state", "xyz")] =
        redirectDeliveredError demoCode "abc" 0 [("state", "pqr")] ∧
      redirectDeliveredError demoCode "abc" 0 [("state", "xyz")] =
        some
          ⟨"The state value returned by the authorization server is invalid.",
            "invalid_state", "abc"⟩ := by decide

/-- Witness for the amended claim C4 at a concrete input. -/
theorem c4_invalid_state_error_witness :
    redirectDeliveredError demoCode "abc" 0 [("state", "xyz")] =
      some
        ⟨"The state value returned by the authorization server is invalid.",
          "invalid_state", "abc"⟩ :=
  c4_invalid_state_error demoCode "abc" 0 [("state", "xyz")] "xyz" (by decide)
    (by decide) (by decide)

/-- Claim C5, amended: on every successful outcome `expiresAt` is exactly the
exchange-time clock reading plus `expiresIn` times 1000 milliseconds; when the
server's `expires_in` is missing, unparseable as a number, or equal to zero,
`expiresIn` becomes 3600 with `expiresAssumed` set; for any other parsed value
`expiresAssumed` is left unchanged (hence false, both call sites initialize it so). -/
theorem c5_expiry (now : Int) (t : TokenInfo) :
    (∃ n : Int, (computeExpires now t).expiresIn = .val n ∧
      (computeExpires now t).expiresAt = now + n * 1000) ∧
    ((t.expiresIn = .nan ∨ t.expiresIn = .val 0) →
      (computeExpires now t).expiresIn = .val 3600 ∧
        (computeExpires now t).expiresAssumed = true) ∧
    (∀ n : Int, t.expiresIn = .val n → n ≠ 0 →
      (computeExpires now t).expiresIn = .val n ∧
        (computeExpires now t).expiresAssumed = t.expiresAssumed) ∧
    jsNumberOfGet none = .val 0 ∧ jsNumberOfProp none = .nan := by
  refine ⟨?_, ?_, ?_, rfl, rfl⟩
  · cases h : t.expiresIn with
    | nan => exact ⟨3600, by simp [computeExpires, h]⟩
    | val n =>
      by_cases h0 : n = 0
      · exact ⟨3600, by simp [computeExpires, h, h0]⟩
      · exact ⟨n, by simp [computeExpires, h, h0]⟩
  · rintro (h | h) <;> simp [computeExpires, h]
  · intro n hn h0
    simp [computeExpires, hn, h0]

/-- Claim C5, counterexample against the claim as stated: the server value
`expires_in=0` is parseable as a number, yet the proxy replaces it with the
3600-second default and sets `expiresAssumed`, where the claim requires
`expiresAssumed` to remain false for any parseable value. -/
theorem c5_counterexample :
    parseJsNumber "0" ≠ JsNum.nan ∧
      (tokenInfoFromParams demoImplicit 0
          [("state", "my-state"), ("access_token", "t"),
            ("expires_in", "0")]).expiresAssumed = true ∧
      (tokenInfoFromParams demoImplicit 0
          [("state", "my-state"), ("access_token", "t"),
            ("expires_in", "0")]).expiresIn = .val 3600 := by decide

/-- Witness for the amended claim C5 at concrete inputs. -/
theorem c5_expiry_witness :
    ((computeExpires 1000 { demoToken with expiresIn := .nan }).expiresIn =
        .val 3600 ∧
      (computeExpires 1000 { demoToken with expiresIn := .nan }).expiresAssumed =
        true) ∧
    ((computeExpires 1000 demoToken).expiresIn = .val 3600 ∧
      (computeExpires 1000 demoToken).expiresAssumed =
        demoToken.expiresAssumed) :=
  ⟨(c5_expiry 1000 { demoToken with expiresIn := .nan }).2.1 (Or.inl rfl),
    (c5_expiry 1000 demoToken).2.2.1 3600 rfl (by decide)⟩

/-- Claim C6: for a client_credentials attempt with `deliveryMethod` set to
`header`, the exchange body contains neither `client_id` nor `client_secret`,
and the extra-header record carries exactly one entry named `deliveryName`
(default `authorization`) whose value is `Basic ` followed by the base64 of
`clientId:clientSecret`; with the default `body` delivery there is no such
header and the (non-empty) credentials appear in the form-encoded body. -/
theorem c6_client_credentials_delivery (s : OAuth2Settings) :
    (s.deliveryMethod = some "header" →
      hasParam (getClientCredentialsBody s) "client_id" = false ∧
        hasParam (getClientCredentialsBody s) "client_secret" = false ∧
        clientCredentialsHeaders s =
          some (s.deliveryName.getD "authorization",
            "Basic " ++
              btoa ((s.clientId.getD "") ++ ":" ++ (s.clientSecret.getD "")))) ∧
    ((s.deliveryMethod = none ∨ s.deliveryMethod = some "body") →
      clientCredentialsHeaders s = none ∧
        (∀ cid, s.clientId = some cid → cid ≠ "" →
          getParam (getClientCredentialsBody s) "client_id" = some cid) ∧
        (∀ sec, s.clientSecret = some sec → sec ≠ "" →
          getParam (getClientCredentialsBody s) "client_secret" = some sec)) := by
  constructor
  · intro hd
    have hkey : ∀ k, k ≠ "grant_type" → k ≠ "scope" →
        getParam (getClientCredentialsBody s) k = none := by
      intro k h1 h2
      simp only [getClientCredentialsBody, hd]
      simp
      repeat' split
      all_goals
        simp [getParam_setParam_ne, Ne.symm h1, Ne.symm h2, getParam, setParam]
    refine ⟨?_, ?_, ?_⟩
    · simp [hasParam, hkey "client_id" (by decide) (by decide)]
    · simp [hasParam, hkey "client_secret" (by decide) (by decide)]
    · simp [clientCredentialsHeaders, hd, getClientCredentialsHeader]
  · intro hd
    have hdt : decide (s.deliveryMethod = some "header") = false := by
      rcases hd with h | h <;> simp [h]
    refine ⟨?_, ?_, ?_⟩
    · rcases hd with h | h <;> simp [clientCredentialsHeaders, h]
    · intro cid hcid hne
      have hj : jsTruthy s.clientId = true := by rw [hcid]; simp [jsTruthy, hne]
      simp only [getClientCredentialsBody, hdt, Bool.not_false, Bool.true_and,
        hj, if_true]
      repeat' split
      all_goals simp [getParam_setParam_ne, getParam_setParam_self, hcid]
    · intro sec hsec hne
      have hj : jsTruthy s.clientSecret = true := by
        rw [hsec]; simp [jsTruthy, hne]
      simp only [getClientCredentialsBody, hdt, Bool.not_false, Bool.true_and,
        hj, if_true]
      repeat' split
      all_goals simp [getParam_setParam_ne, getParam_setParam_self, hsec]

/-- Witness for claim C6 at concrete inputs, including a concrete base64
evaluation of the Basic header. -/
theorem c6_client_credentials_delivery_witness :
    hasParam (getClientCredentialsBody demoCreds) "client_id" = false ∧
      hasParam (getClientCredentialsBody demoCreds) "client_secret" = false ∧
      clientCredentialsHeaders demoCreds =
        some ("authorization", "Basic aWQ6c2VjcmV0") ∧
      clientCredentialsHeaders { demoCreds with deliveryMethod := none } =
        none ∧
      getParam (getClientCredentialsBody { demoCreds with deliveryMethod := none })
          "client_id" = some "id" ∧
      getParam (getClientCredentialsBody { demoCreds with deliveryMethod := none })
          "client_secret" = some "secret" := by
  have h1 := (c6_client_credentials_delivery demoCreds).1 rfl
  have h2 := (c6_client_credentials_delivery
    { demoCreds with deliveryMethod := none }).2 (Or.inl rfl)
  exact ⟨h1.1, h1.2.1, h1.2.2.trans (by decide), h2.1,
    h2.2.1 "id" rfl (by decide), h2.2.2 "secret" rfl (by decide)⟩

/-- Claim C7, amended: the HTTP failures of the token exchange are reported with
code `request_error` and, in this order of checking, the 404 message, the
5xx message carrying the status code, the empty-body message, and the 4xx message
embedding the raw body — each prefixed by the error handler with the text
`Couldn't connect to the server. `. -/
theorem c7_exchange_http_failures (status : Nat) (textOk : Bool) (body : String) :
    (status = 404 →
      exchangeHttpFailure status textOk body =
        some
          ("Couldn\x27t connect to the server. Authorization URI is invalid. Received status 404.",
            "request_error")) ∧
    (status ≠ 404 → 500 ≤ status →
      exchangeHttpFailure status textOk body =
        some
          ("Couldn\x27t connect to the server. Authorization server error. Response code is: " ++
              toString status,
            "request_error")) ∧
    (status ≠ 404 → status < 500 → textOk = true → body = "" →
      exchangeHttpFailure status textOk body =
        some
          ("Couldn\x27t connect to the server. Code response body is empty.",
            "request_error")) ∧
    (status ≠ 404 → status < 500 → 400 ≤ status → textOk = true → body ≠ "" →
      exchangeHttpFailure status textOk body =
        some
          ("Couldn\x27t connect to the server. Client error: " ++ body,
            "request_error")) := by
  refine ⟨?_, ?_, ?_, ?_⟩
  · intro h
    simp [exchangeHttpFailure, requestTokenInfoGate, handleTokenCodeError, h]
  · intro h1 h2
    simp [exchangeHttpFailure, requestTokenInfoGate, handleTokenCodeError,
      h1, h2, ← String.append_assoc]
  · intro h1 h2 h3 h4
    have h5 : ¬(500 ≤ status) := by omega
    simp [exchangeHttpFailure, requestTokenInfoGate, handleTokenCodeError,
      h1, h5, h3, h4]
  · intro h1 h2 h3 h4 h5
    have h6 : ¬(500 ≤ status) := by omega
    simp [exchangeHttpFailure, requestTokenInfoGate, handleTokenCodeError,
      h1, h6, h2, h3, h4, h5, ← String.append_assoc]

/-- Claim C7, counterexample against the claim as stated: for a 404 exchange
response the delivered message is not the bare 404 text — the error handler
prefixes it with the connection text before reporting. -/
theorem c7_counterexample :
    exchangeHttpFailure 404 true "irrelevant" ≠
        some
          ("Authorization URI is invalid. Received status 404.",
            "request_error") ∧
      exchangeHttpFailure 404 true "irrelevant" =
        some
          ("Couldn\x27t connect to the server. Authorization URI is invalid. Received status 404.",
            "request_error") := by decide

/-- Witness for the amended claim C7 at concrete statuses. -/
theorem c7_exchange_http_failures_witness :
    exchangeHttpFailure 404 true "x" =
        some
          ("Couldn\x27t connect to the server. Authorization URI is invalid. Received status 404.",
            "request_error") ∧
      exchangeHttpFailure 503 true "x" =
        some
          ("Couldn\x27t connect to the server. Authorization server error. Response code is: " ++
              toString 503,
            "request_error") ∧
      exchangeHttpFailure 200 true "" =
        some
          ("Couldn\x27t connect to the server. Code response body is empty.",
            "request_error") ∧
      exchangeHttpFailure 422 true "bad" =
        some
          ("Couldn\x27t connect to the server. Client error: bad",
            "request_error") :=
  ⟨(c7_exchange_http_failures 404 true "x").1 rfl,
    (c7_exchange_http_failures 503 true "x").2.1 (by decide) (by decide),
    (c7_exchange_http_failures 200 true "").2.2.1 (by decide) (by decide) rfl
      rfl,
    (c7_exchange_http_failures 422 true "bad").2.2.2 (by decide) (by decide)
      (by decide) rfl (by decide)⟩

/-- Claim C8, amended: the token type is copied verbatim from the server
response — `_tokenInfoFromParams` takes the raw `token_type` entry and
`mapCodeResponse` the camel-cased `tokenType` entry — and no `Bearer` default is
applied, so the field is absent (null) whenever the server omits it. -/
theorem c8_token_type_verbatim (s : OAuth2Settings) (now : Int)
    (oauthParams info : Params) (t : TokenInfo)
    (hok : mapCodeResponse s now info = .ok t) :
    (tokenInfoFromParams s now oauthParams).tokenType =
        getParam oauthParams "token_type" ∧
      t.tokenType = getParam info "tokenType" := by
  constructor
  · simp [tokenInfoFromParams, computeExpires_tokenType]
  · unfold mapCodeResponse at hok
    by_cases h : jsTruthy (getParam info "error") = true
    · rw [if_pos h] at hok
      exact absurd hok (by simp)
    · rw [if_neg h] at hok
      injection hok with hok
      rw [← hok, computeExpires_tokenType]

/-- Claim C8, counterexample against the claim as stated: a successful redirect
payload without a `token_type` entry yields a token whose `tokenType` is null,
not the claimed default `Bearer`. -/
theorem c8_counterexample :
    (tokenInfoFromParams demoImplicit 0
        [("state", "my-state"), ("access_token", "t")]).tokenType = none ∧
      (tokenInfoFromParams demoImplicit 0
          [("state", "my-state"), ("access_token", "t")]).tokenType ≠
        some "Bearer" := by decide

/-- Witness for the amended claim C8 at concrete inputs. -/
theorem c8_token_type_verbatim_witness :
    (tokenInfoFromParams demoImplicit 5 [("token_type", "mac")]).tokenType =
        getParam [("token_type", "mac")] "token_type" ∧
      TokenInfo.tokenType
          { accessToken := none
            idToken := none
            refreshToken := none
            tokenType := some "mac"
            expiresIn := .val 3600
            state := none
            scope := ["a", "b"]
            expiresAt := 3600005
            expiresAssumed := true } =
        getParam [("tokenType", "mac")] "tokenType" :=
  c8_token_type_verbatim demoImplicit 5 [("token_type", "mac")]
    [("tokenType", "mac")] _ rfl

/-- Claim C9, amended: a captured redirect whose URL cannot be parsed or whose
query and fragment are both empty terminates the attempt with `popup_error`; but
a payload that parses into parameters containing none of `state`, `error`,
`access_token`, `code` is only logged as a console warning and ignored, leaving
the attempt unresolved; qualifying payloads proceed to response processing. -/
theorem c9_popup_redirect_outcomes (u : RedirectUrl) :
    ((authDataFromUrl u = none ∨ authDataFromUrl u = some "") →
      processPopupResponseUrl u =
        .failure
          "Invalid response from the authentication server. The redirect parameters are invalid."
          "popup_error") ∧
    (∀ raw, authDataFromUrl u = some raw → raw ≠ "" →
      validateTokenResponse (parseSearchParams raw) = false →
      processPopupResponseUrl u = .ignored) ∧
    (∀ raw, authDataFromUrl u = some raw → raw ≠ "" →
      validateTokenResponse (parseSearchParams raw) = true →
      processPopupResponseUrl u = .process (parseSearchParams raw)) := by
  refine ⟨?_, ?_, ?_⟩
  · rintro (h | h) <;> simp [processPopupResponseUrl, h]
  · intro raw hr h0 hv
    simp [processPopupResponseUrl, hr, h0, hv]
  · intro raw hr h0 hv
    simp [processPopupResponseUrl, hr, h0, hv]

/-- Claim C9, counterexample against the claim as stated: the redirect payload
`foo=bar` parses into parameters but contains no authorization parameter, and the
attempt is silently ignored (left unresolved) instead of terminating with
`popup_error`. -/
theorem c9_counterexample :
    processPopupResponseUrl (.ok "foo=bar" "") = .ignored ∧
      processPopupResponseUrl (.ok "foo=bar" "") ≠
        .failure
          "Invalid response from the authentication server. The redirect parameters are invalid."
          "popup_error" := by decide

/-- Witness for the amended claim C9 at concrete redirects. -/
theorem c9_popup_redirect_outcomes_witness :
    processPopupResponseUrl .malformed =
        .failure
          "Invalid response from the authentication server. The redirect parameters are invalid."
          "popup_error" ∧
      processPopupResponseUrl (.ok "foo=bar" "") = .ignored ∧
      processPopupResponseUrl (.ok "" "state=abc") =
        .process [("state", "abc")] :=
  ⟨(c9_popup_redirect_outcomes .malformed).1 (Or.inl rfl),
    (c9_popup_redirect_outcomes (.ok "foo=bar" "")).2.1 "foo=bar" rfl
      (by decide) (by decide),
    ((c9_popup_redirect_outcomes (.ok "" "state=abc")).2.2 "state=abc"
        (by decide) (by decide) (by decide)).trans (by decide)⟩

/-- Claim C10: the authorization_code exchange body always contains a
`client_secret` entry — the configured secret when set, the empty string when
absent — and the body does not depend on the configured `deliveryMethod`. -/
theorem c10_code_request_body_secret (s : OAuth2Settings) (code : String)
    (verifier dm : Option String) :
    getParam (getCodeRequestBody s code verifier) "client_secret" =
        some (s.clientSecret.getD "") ∧
      getCodeRequestBody { s with deliveryMethod := dm } code verifier =
        getCodeRequestBody s code verifier := by
  refine ⟨?_, rfl⟩
  cases hcs : s.clientSecret with
  | none =>
    simp only [getCodeRequestBody, hcs]
    repeat' split
    all_goals
      simp_all [getParam_setParam_ne, getParam_setParam_self, jsTruthy]
  | some v =>
    simp only [getCodeRequestBody, hcs]
    repeat' split
    all_goals
      simp_all [getParam_setParam_ne, getParam_setParam_self, jsTruthy]

end ApiConsoleExtension
